import Mathlib

/-!
Shallow embedding of the accessibility-tree element finder and interaction
layer of `scripts/navigator.py`, together with the coordinate transform of
`skill/scripts/common/device_utils.py`.

Modelling conventions:
* Python `Optional[str]` fields become `Option String`; a Python argument
  that the source tests with truthiness (`if text:`) is modelled by
  `truthyOptStr`, which is false for both `None` and the empty string.
* Python floats are modelled by exact fractions (`Frac`, an integer
  numerator with a positive integer denominator); the one place where
  IEEE double rounding is observable, the coordinate transform, is
  modelled by an explicit round-to-nearest-even model (`roundDoubleF`).
* Calls to the external `idb` collaborator are modelled by oracles
  (functions giving each call its outcome) and, where a claim is about
  which external commands are attempted, by an explicit trace of commands.
* Python `str.lower` is modelled for the ASCII range by `lowerStr`.
-/

/-- Exact fraction: an integer numerator over a denominator that is kept
positive by construction.  Used to model Python float values and float
arithmetic exactly, in a form the kernel evaluates (plain integer
operations, no normalisation). -/
structure Frac where
  num : ℤ
  den : ℤ
deriving DecidableEq, Repr

/-- Embedding of an integer as a fraction. -/
def Frac.ofInt (n : ℤ) : Frac := ⟨n, 1⟩

/-- Sum of two fractions. -/
def fracAdd (a b : Frac) : Frac := ⟨a.num * b.den + b.num * a.den, a.den * b.den⟩

/-- Product of two fractions. -/
def fracMul (a b : Frac) : Frac := ⟨a.num * b.num, a.den * b.den⟩

/-- Halving of a fraction, the `width / 2` of the center computation. -/
def fracHalf (a : Frac) : Frac := ⟨a.num, a.den * 2⟩

/-- Floor of a fraction with positive denominator. -/
def floorF (f : Frac) : ℤ :=
  if 0 ≤ f.num then ((f.num.toNat / f.den.toNat : ℕ) : ℤ)
  else -(((((-f.num).toNat + f.den.toNat) - 1) / f.den.toNat : ℕ) : ℤ)

/-- Truncation toward zero of a fraction with positive denominator, the
behaviour of Python `int()` on a number. -/
def pyIntF (f : Frac) : ℤ :=
  if 0 ≤ f.num then ((f.num.toNat / f.den.toNat : ℕ) : ℤ)
  else -(((-f.num).toNat / f.den.toNat : ℕ) : ℤ)

/-- Frame rectangle of an element, the `frame` dict of the source
(`x`, `y`, `width`, `height`); float values modelled as exact
fractions. -/
structure Frame where
  x : Frac
  y : Frac
  width : Frac
  height : Frac
deriving DecidableEq, Repr

/-- Element dataclass of `navigator.py` (lines 66-88). -/
structure Element where
  type : String
  label : Option String
  value : Option String
  identifier : Option String
  frame : Frame
  traits : List String
  enabled : Bool
deriving DecidableEq, Repr

/-- Element.center (lines 77-82): `int(x + width / 2)`, `int(y + height / 2)`. -/
def Element.center (e : Element) : ℤ × ℤ :=
  (pyIntF (fracAdd e.frame.x (fracHalf e.frame.width)),
   pyIntF (fracAdd e.frame.y (fracHalf e.frame.height)))

/-- Python `a or b` for a string `a` that may be `None`: the fallback is
taken when `a` is `None` or empty (falsy). -/
def pyOrStr : Option String → String → String
  | none, b => b
  | some s, b => if s = "" then b else s

/-- Element.description (lines 84-88):
`label or value or identifier or "Unnamed"`, quoted after the type. -/
def Element.description (e : Element) : String :=
  e.type ++ " \"" ++ pyOrStr e.label (pyOrStr e.value (pyOrStr e.identifier "Unnamed")) ++ "\""

/-- Search criteria of `find_element` (lines 149-156): `text`,
`element_type`, `identifier`, `index`, `fuzzy`.  `index` is an `Int`
because Python allows negative indices to reach the list lookup. -/
structure Criteria where
  text : Option String
  elementType : Option String
  identifier : Option String
  index : ℤ
  fuzzy : Bool
deriving DecidableEq, Repr

/-- Python truthiness of an optional string: `None` and `""` are falsy. -/
def truthyOptStr : Option String → Bool
  | none => false
  | some s => !(s == "")

/-- ASCII lower-casing of a character, modelling Python `str.lower` on the
ASCII range. -/
def lowerChar (c : Char) : Char :=
  if 65 ≤ c.toNat ∧ c.toNat ≤ 90 then Char.ofNat (c.toNat + 32) else c

/-- ASCII lower-casing of a string. -/
def lowerStr (s : String) : String :=
  ⟨s.data.map lowerChar⟩

/-- Substring test on character lists: Python `needle in hay`. -/
def inCharList (needle : List Char) : List Char → Bool
  | [] => needle.isEmpty
  | c :: t => needle.isPrefixOf (c :: t) || inCharList needle t

/-- Python `needle in hay` on strings. -/
def pyIn (needle hay : String) : Bool :=
  inCharList needle.data hay.data

/-- Haystack of the fuzzy text match (line 190):
`(elem.label or "") + " " + (elem.value or "")`. -/
def haystackOf (e : Element) : String :=
  (e.label.getD "") ++ " " ++ (e.value.getD "")

/-- Text filter of `find_element` (lines 188-196).  The filter is skipped
when `text` is falsy; under `fuzzy` it is a case-insensitive substring
test of the haystack, otherwise exact equality with the label or the
value (a Python `==` against an `Optional[str]`). -/
def textFilter (text : Option String) (fuzzy : Bool) (e : Element) : Bool :=
  match text with
  | none => true
  | some t =>
    if t = "" then true
    else if fuzzy then pyIn (lowerStr t) (lowerStr (haystackOf e))
    else (e.label == some t) || (e.value == some t)

/-- Type filter of `find_element` (lines 180-182), skipped when
`element_type` is falsy. -/
def typeFilter (elementType : Option String) (e : Element) : Bool :=
  match elementType with
  | none => true
  | some t => if t = "" then true else e.type == t

/-- Identifier filter of `find_element` (lines 184-186), skipped when
`identifier` is falsy. -/
def identifierFilter (identifier : Option String) (e : Element) : Bool :=
  match identifier with
  | none => true
  | some i => if i = "" then true else e.identifier == some i

/-- The whole filter body of the matching loop (lines 175-198): disabled
elements are dropped first, then the type, identifier and text filters
are applied. -/
def passesFilters (c : Criteria) (e : Element) : Bool :=
  e.enabled && typeFilter c.elementType e && identifierFilter c.identifier e
    && textFilter c.text c.fuzzy e

/-- Result of `find_element`: a found element, the `None` sentinel, or a
raised `IndexError` from the final list lookup. -/
inductive FindResult where
  | found (e : Element)
  | notFound
  | indexError
deriving DecidableEq, Repr

/-- Python list indexing `xs[i]` with an `int` index: non-negative indices
count from the front, negative indices from the back, and an index out of
either range raises `IndexError`. -/
def pyListGet (xs : List Element) (i : ℤ) : FindResult :=
  if 0 ≤ i then
    match xs[i.toNat]? with
    | some e => .found e
    | none => .indexError
  else if 0 ≤ (xs.length : ℤ) + i then
    match xs[((xs.length : ℤ) + i).toNat]? with
    | some e => .found e
    | none => .indexError
  else .indexError

/-- Navigator.find_element (lines 149-203), factored over the flattened
element list: filter in document order, then
`if matches and index < len(matches): return matches[index]` else `None`. -/
def find_element (elements : List Element) (c : Criteria) : FindResult :=
  let ms := elements.filter (passesFilters c)
  if ms ≠ [] ∧ c.index < (ms.length : ℤ) then pyListGet ms c.index
  else .notFound

/-- Raw accessibility-tree node as consumed by `_flatten_tree`
(lines 125-147): the fields the source reads with `node.get`, with an
ordered child list.  A node whose `enabled` key is absent is modelled
with `enabled := true` (the `node.get('enabled', True)` default); a node
whose `type` key is absent or empty is modelled by `none` or `some ""`
(both falsy for `node.get('type')`). -/
inductive Node where
  | mk : Option String → Option String → Option String → Option String →
      Frame → List String → Bool → List Node → Node
deriving Repr

/-- Field accessor for the `type` entry of a raw node. -/
def Node.typeField : Node → Option String
  | .mk t _ _ _ _ _ _ _ => t

/-- Field accessor for the `enabled` entry of a raw node. -/
def Node.enabledField : Node → Bool
  | .mk _ _ _ _ _ _ en _ => en

/-- Field accessor for the child list of a raw node. -/
def Node.children : Node → List Node
  | .mk _ _ _ _ _ _ _ cs => cs

/-- Element built from a raw node (lines 132-140): label, value and
identifier come from `AXLabel`, `AXValue`, `AXUniqueId`; the type falls
back to `"Unknown"`. -/
def nodeElement : Node → Element
  | .mk t l v i fr tr en _ => ⟨t.getD "Unknown", l, v, i, fr, tr, en⟩

mutual

/-- Navigator._flatten_tree (lines 125-147): emit the node when its
`type` entry is truthy, then recurse into the children in order. -/
def flatten_tree : Node → List Element
  | .mk t l v i fr tr en cs =>
    (if truthyOptStr t then [nodeElement (.mk t l v i fr tr en cs)] else [])
      ++ flatten_list cs

/-- Flattening of a child list in order, the `for child in
node.get('children', [])` loop. -/
def flatten_list : List Node → List Element
  | [] => []
  | n :: ns => flatten_tree n ++ flatten_list ns

end

mutual

/-- Modelled from the spec: the pre-order depth-first node sequence of a
tree, in which every node precedes its descendants and siblings keep
their given order.  Used as the reference order for the flattener. -/
def specPreorder : Node → List Node
  | .mk t l v i fr tr en cs => .mk t l v i fr tr en cs :: specPreorderList cs

/-- Pre-order sequence of a sibling list, in the given order. -/
def specPreorderList : List Node → List Node
  | [] => []
  | n :: ns => specPreorder n ++ specPreorderList ns

end

/-- Emission of one raw node as the flattener performs it: an element
exactly when the `type` entry is truthy. -/
def emitNode (n : Node) : Option Element :=
  if truthyOptStr n.typeField then some (nodeElement n) else none

/-- Minimal model of the JSON values `json.loads` can hand to
`get_accessibility_tree`: arrays, objects, strings, numbers, booleans
and null, enough to express Python truthiness of the cached value. -/
inductive PyJson where
  | arr : List PyJson → PyJson
  | obj : List (String × PyJson) → PyJson
  | str : String → PyJson
  | num : ℤ → PyJson
  | boolv : Bool → PyJson
  | nullv : PyJson
deriving Repr

/-- Python truthiness of a JSON value: containers and strings are truthy
when non-empty, numbers when non-zero, null never. -/
def pyTruthy : PyJson → Bool
  | .arr xs => !xs.isEmpty
  | .obj fs => !fs.isEmpty
  | .str s => !(s == "")
  | .num n => !(n == 0)
  | .boolv b => b
  | .nullv => false

/-- Reduction of the parsed JSON before caching (lines 112-116): a
non-empty array is replaced by its first entry, anything else is kept. -/
def reduceFetched : PyJson → PyJson
  | .arr (x :: _) => x
  | v => v

/-- State of one Navigator instance as far as the cache logic sees it:
the `_tree_cache` slot (initially Python `None`) together with the
number of external fetch invocations performed so far. -/
structure NavState where
  treeCache : Option PyJson
  fetchCount : ℕ
deriving Repr

/-- Fresh Navigator state (`__init__`, lines 94-97). -/
def initNav : NavState := ⟨none, 0⟩

/-- Truthiness of the `_tree_cache` slot in
`if self._tree_cache and not force_refresh` (line 101): Python `None`
is falsy, a cached JSON value by `pyTruthy`. -/
def truthyCache : Option PyJson → Bool
  | none => false
  | some v => pyTruthy v

/-- Navigator.get_accessibility_tree (lines 99-117) on the successful
path, with the external collaborator modelled as the oracle `fetch`
giving the parsed JSON of each successive fetch invocation.  Returns the
tree handed to the caller and the new state. -/
def get_accessibility_tree (fetch : ℕ → PyJson) (s : NavState)
    (force_refresh : Bool) : PyJson × NavState :=
  if truthyCache s.treeCache && !force_refresh then
    (s.treeCache.getD .nullv, s)
  else
    let v := reduceFetched (fetch s.fetchCount)
    (v, ⟨some v, s.fetchCount + 1⟩)

/-- External command dispatched to the `idb` collaborator: a tap at
coordinates or a text entry. -/
inductive Cmd where
  | tapCmd (x y : ℤ)
  | textCmd (s : String)
deriving DecidableEq, Repr

/-- Navigator.tap_at (lines 210-220) with the collaborator outcome given
by the oracle `tapOk`; the trace records the attempted command. -/
def tap_at (tapOk : ℤ → ℤ → Bool) (x y : ℤ) : Bool × List Cmd :=
  (tapOk x y, [Cmd.tapCmd x y])

/-- Navigator.tap (lines 205-208): tap at the element center. -/
def tap (tapOk : ℤ → ℤ → Bool) (e : Element) : Bool × List Cmd :=
  tap_at tapOk e.center.1 e.center.2

/-- Navigator.enter_text (lines 222-250): when an element is given, tap
it first and abort with failure when that tap fails; otherwise dispatch
the text command, whose outcome the oracle `textOk` gives. -/
def enter_text (tapOk : ℤ → ℤ → Bool) (textOk : String → Bool)
    (text : String) (element : Option Element) : Bool × List Cmd :=
  match element with
  | some e =>
    let r := tap tapOk e
    if !r.1 then (false, r.2)
    else (textOk text, r.2 ++ [Cmd.textCmd text])
  | none => (textOk text, [Cmd.textCmd text])

/-- Result of a find-and-act operation: the `(success, message)` pair,
or a propagated exception from the element lookup. -/
inductive ActResult where
  | ok (success : Bool) (message : String)
  | raised
deriving DecidableEq, Repr

/-- Success flag of a find-and-act result (`raised` counts as no
success). -/
def ActResult.succeeded : ActResult → Bool
  | .ok b _ => b
  | .raised => false

/-- Join of message parts, Python `", ".join(criteria)`. -/
def joinSep (sep : String) : List String → String
  | [] => ""
  | [s] => s
  | s :: rest => s ++ sep ++ joinSep sep rest

/-- Criteria echo of `find_and_tap` (lines 268-271): one fragment per
truthy criterion, in the order text, type, identifier. -/
def criteriaEcho (text elementType identifier : Option String) : List String :=
  (match text with
   | some t => if t = "" then [] else ["text=\x27" ++ t ++ "\x27"]
   | none => []) ++
  (match elementType with
   | some t => if t = "" then [] else ["type=" ++ t]
   | none => []) ++
  (match identifier with
   | some i => if i = "" then [] else ["id=" ++ i]
   | none => [])

/-- Rendering of the element center as Python prints the tuple. -/
def centerStr (e : Element) : String :=
  "(" ++ toString e.center.1 ++ ", " ++ toString e.center.2 ++ ")"

/-- Navigator.find_and_tap (lines 252-277): resolve the element with
`find_element` (the `fuzzy` argument is not forwarded and stays at its
default `True`), then tap it, producing the `(success, message)` pair. -/
def find_and_tap (tapOk : ℤ → ℤ → Bool) (elements : List Element)
    (text elementType identifier : Option String) (index : ℤ) : ActResult :=
  match find_element elements ⟨text, elementType, identifier, index, true⟩ with
  | .indexError => .raised
  | .notFound =>
    .ok false ("Not found: " ++ joinSep ", " (criteriaEcho text elementType identifier))
  | .found e =>
    if (tap tapOk e).1 then
      .ok true ("Tapped: " ++ e.description ++ " at " ++ centerStr e)
    else
      .ok false ("Failed to tap: " ++ e.description)

/-- Post-lookup behaviour of `find_and_tap`, as a function of an
arbitrary lookup result; used to state that the operation factors
through `find_element` with `fuzzy := true`. -/
def actOnFindTap (tapOk : ℤ → ℤ → Bool) (res : FindResult)
    (text elementType identifier : Option String) : ActResult :=
  match res with
  | .indexError => .raised
  | .notFound =>
    .ok false ("Not found: " ++ joinSep ", " (criteriaEcho text elementType identifier))
  | .found e =>
    if (tap tapOk e).1 then
      .ok true ("Tapped: " ++ e.description ++ " at " ++ centerStr e)
    else
      .ok false ("Failed to tap: " ++ e.description)

/-- Navigator.find_and_enter_text (lines 279-301): resolve the element
with `find_element` (again without forwarding `fuzzy`; the
`element_type` argument defaults to `"TextField"` at the call sites),
then enter the text via `enter_text`. -/
def find_and_enter_text (tapOk : ℤ → ℤ → Bool) (textOk : String → Bool)
    (elements : List Element) (text_to_enter : String)
    (find_text elementType identifier : Option String) (index : ℤ) : ActResult :=
  match find_element elements ⟨find_text, elementType, identifier, index, true⟩ with
  | .indexError => .raised
  | .notFound => .ok false "TextField not found"
  | .found e =>
    if (enter_text tapOk textOk text_to_enter (some e)).1 then
      .ok true ("Entered text in: " ++ e.description)
    else
      .ok false "Failed to enter text"

/-- Post-lookup behaviour of `find_and_enter_text`, as a function of an
arbitrary lookup result. -/
def actOnFindEnter (tapOk : ℤ → ℤ → Bool) (textOk : String → Bool)
    (text_to_enter : String) (res : FindResult) : ActResult :=
  match res with
  | .indexError => .raised
  | .notFound => .ok false "TextField not found"
  | .found e =>
    if (enter_text tapOk textOk text_to_enter (some e)).1 then
      .ok true ("Entered text in: " ++ e.description)
    else
      .ok false "Failed to enter text"

/-- Round-to-nearest with ties to even of a fraction (positive
denominator) to an integer. -/
def roundHalfEvenF (f : Frac) : ℤ :=
  let fl := floorF f
  let r2 := 2 * (f.num - fl * f.den)
  if r2 < f.den then fl
  else if f.den < r2 then fl + 1
  else if fl % 2 = 0 then fl else fl + 1

/-- Binade exponent of a positive fraction: the integer `e` with
`2 ^ e ≤ f < 2 ^ (e + 1)`, found by repeated doubling or halving.  The
fuel bounds the iteration count; `1200` covers the whole binary64
exponent range, far beyond any value the claims exercise. -/
def ilogF : ℕ → Frac → ℤ → ℤ
  | 0, _, e => e
  | fuel + 1, f, e =>
    if f.num < f.den then ilogF fuel ⟨f.num * 2, f.den⟩ (e - 1)
    else if 2 * f.den ≤ f.num then ilogF fuel ⟨f.num, f.den * 2⟩ (e + 1)
    else e

/-- Rounding of an exact fraction to the nearest IEEE-754 binary64
value, for positive fractions in the normal range (which covers every
value the claims exercise); non-positive inputs map to zero.  With the
binade exponent `e`, the 53-bit significand `f * 2 ^ (52 - e)` is
rounded to nearest, ties to even. -/
def roundDoubleF (f : Frac) : Frac :=
  if f.num ≤ 0 then ⟨0, 1⟩
  else
    let e := ilogF 1200 f 0
    let sNum : ℤ := if 0 ≤ 52 - e then 2 ^ (52 - e).toNat else 1
    let sDen : ℤ := if 0 ≤ 52 - e then 1 else 2 ^ (e - 52).toNat
    let m := roundHalfEvenF ⟨f.num * sNum, f.den * sDen⟩
    ⟨m * sDen, sNum⟩

/-- transform_screenshot_coords of `device_utils.py` (lines 240-279):
`int((x / screenshot_width) * device_width)` and likewise for y, with
each Python float operation (the division and the multiplication)
rounded to binary64 as the interpreter does.  Inputs are the
integer-valued arguments the documented example uses. -/
def transform_screenshot_coords (x y : ℤ)
    (screenshot_width screenshot_height device_width device_height : ℤ) : ℤ × ℤ :=
  (pyIntF (roundDoubleF (fracMul (roundDoubleF ⟨x, screenshot_width⟩) (Frac.ofInt device_width))),
   pyIntF (roundDoubleF (fracMul (roundDoubleF ⟨y, screenshot_height⟩) (Frac.ofInt device_height))))

/-- Exact-arithmetic reading of the transform, the formula the spec
states: `floor(x / screenshotW * deviceW)` per axis with no intermediate
rounding. -/
def specTransform (x y : ℤ)
    (screenshot_width screenshot_height device_width device_height : ℤ) : ℤ × ℤ :=
  (floorF ⟨x * device_width, screenshot_width⟩,
   floorF ⟨y * device_height, screenshot_height⟩)

/-- Concrete fixture: an enabled button labelled "Log In". -/
def elLogIn : Element :=
  ⟨"Button", some "Log In", none, none, ⟨⟨100, 1⟩, ⟨200, 1⟩, ⟨50, 1⟩, ⟨40, 1⟩⟩, [], true⟩

/-- Concrete fixture: enabled button labelled A. -/
def elA : Element := ⟨"Button", some "A", none, none, ⟨⟨0, 1⟩, ⟨0, 1⟩, ⟨10, 1⟩, ⟨10, 1⟩⟩, [], true⟩

/-- Concrete fixture: enabled button labelled B. -/
def elB : Element := ⟨"Button", some "B", none, none, ⟨⟨0, 1⟩, ⟨20, 1⟩, ⟨10, 1⟩, ⟨10, 1⟩⟩, [], true⟩

/-- Concrete fixture: enabled button labelled C. -/
def elC : Element := ⟨"Button", some "C", none, none, ⟨⟨0, 1⟩, ⟨40, 1⟩, ⟨10, 1⟩, ⟨10, 1⟩⟩, [], true⟩

/-- Concrete fixture: the three buttons A, B, C in document order. -/
def threeButtons : List Element := [elA, elB, elC]

/-- Concrete fixture: a disabled button labelled "Pay". -/
def elDisabled : Element :=
  ⟨"Button", some "Pay", none, none, ⟨⟨0, 1⟩, ⟨0, 1⟩, ⟨10, 1⟩, ⟨10, 1⟩⟩, [], false⟩

/-- Concrete fixture: raw node of the disabled "Pay" button. -/
def nodeDisabled : Node :=
  .mk (some "Button") (some "Pay") none none ⟨⟨0, 1⟩, ⟨0, 1⟩, ⟨10, 1⟩, ⟨10, 1⟩⟩ [] false []

/-- Concrete fixture: grandchild node C1a of the flatten-order example. -/
def nodeC1a : Node := .mk (some "Other") (some "C1a") none none ⟨⟨0, 1⟩, ⟨0, 1⟩, ⟨1, 1⟩, ⟨1, 1⟩⟩ [] true []

/-- Concrete fixture: child node C1 with one child C1a. -/
def nodeC1 : Node := .mk (some "Other") (some "C1") none none ⟨⟨0, 1⟩, ⟨0, 1⟩, ⟨1, 1⟩, ⟨1, 1⟩⟩ [] true [nodeC1a]

/-- Concrete fixture: child node C2 with no children. -/
def nodeC2 : Node := .mk (some "Other") (some "C2") none none ⟨⟨0, 1⟩, ⟨0, 1⟩, ⟨1, 1⟩, ⟨1, 1⟩⟩ [] true []

/-- Concrete fixture: root node R with children C1 and C2. -/
def nodeR : Node := .mk (some "Window") (some "R") none none ⟨⟨0, 1⟩, ⟨0, 1⟩, ⟨1, 1⟩, ⟨1, 1⟩⟩ [] true [nodeC1, nodeC2]

/-- Concrete fixture: a fetch oracle that always yields an empty JSON
object, which Python treats as falsy when cached. -/
def emptyObjFetch : ℕ → PyJson := fun _ => .obj []

/-- Concrete fixture: a fetch oracle that always yields a non-empty
(truthy) JSON object. -/
def appObjFetch : ℕ → PyJson := fun _ => .obj [("type", .str "Application")]

theorem inCharList_iff_infix (needle hay : List Char) :
    inCharList needle hay = true ↔ needle <:+: hay := by
  induction hay with
  | nil => simp [inCharList, List.infix_nil, List.isEmpty_iff]
  | cons c t ih =>
    simp only [inCharList, Bool.or_eq_true, List.isPrefixOf_iff_prefix, ih,
      List.infix_cons_iff]

theorem pyIn_iff_infix (needle hay : String) :
    pyIn needle hay = true ↔ needle.data <:+: hay.data :=
  inCharList_iff_infix needle.data hay.data

mutual

theorem flatten_tree_eq : ∀ t : Node,
    flatten_tree t = (specPreorder t).filterMap emitNode
  | .mk ty l v i fr tr en cs => by
    rw [flatten_tree, specPreorder, List.filterMap_cons]
    have hrest := flatten_list_eq cs
    by_cases hT : truthyOptStr ty = true
    · simp [emitNode, Node.typeField, hT, hrest]
    · simp [emitNode, Node.typeField, hT, hrest]

theorem flatten_list_eq : ∀ ts : List Node,
    flatten_list ts = (specPreorderList ts).filterMap emitNode
  | [] => rfl
  | n :: ns => by
    rw [flatten_list, specPreorderList, List.filterMap_append,
      flatten_tree_eq n, flatten_list_eq ns]

end

theorem pyListGet_found_mem (xs : List Element) (i : ℤ) (e : Element)
    (h : pyListGet xs i = .found e) : e ∈ xs := by
  unfold pyListGet at h
  by_cases h0 : 0 ≤ i
  · rw [if_pos h0] at h
    cases heq : xs[i.toNat]? with
    | some e2 =>
      rw [heq] at h
      cases h
      exact List.getElem?_mem heq
    | none => rw [heq] at h; cases h
  · rw [if_neg h0] at h
    by_cases h1 : 0 ≤ (xs.length : ℤ) + i
    · rw [if_pos h1] at h
      cases heq : xs[((xs.length : ℤ) + i).toNat]? with
      | some e2 =>
        rw [heq] at h
        cases h
        exact List.getElem?_mem heq
      | none => rw [heq] at h; cases h
    · rw [if_neg h1] at h; cases h

theorem find_element_found_passes (elements : List Element) (c : Criteria)
    (e : Element) (h : find_element elements c = .found e) :
    passesFilters c e = true := by
  unfold find_element at h
  by_cases hg : elements.filter (passesFilters c) ≠ [] ∧
      c.index < ((elements.filter (passesFilters c)).length : ℤ)
  · rw [if_pos hg] at h
    exact (List.mem_filter.mp (pyListGet_found_mem _ _ _ h)).2
  · rw [if_neg hg] at h; cases h

/-- C1: for every element and non-empty text criterion, the fuzzy text
filter passes exactly when the lower-cased haystack `label + " " + value`
contains the lower-cased text as a substring, and the exact filter
passes exactly when the text equals the label or equals the value; in
particular for label "Log In" the text "log" passes with fuzzy and fails
without. -/
theorem C1_fuzzy_vs_exact_text_filter (e : Element) (t : String) (h : t ≠ "") :
    (textFilter (some t) true e = true ↔
      (lowerStr t).data <:+: (lowerStr (haystackOf e)).data) ∧
    (textFilter (some t) false e = true ↔
      (e.label = some t ∨ e.value = some t)) ∧
    (textFilter (some "log") true elLogIn = true ∧
      textFilter (some "log") false elLogIn = false) := by
  refine ⟨?_, ?_, by decide, by decide⟩
  · simp [textFilter, h, pyIn_iff_infix]
  · simp [textFilter, h]

/-- Witness for C1 at text "log" and the "Log In" element. -/
theorem C1_witness :
    ("log" : String) ≠ "" ∧
    (textFilter (some "log") true elLogIn = true ↔
      (lowerStr "log").data <:+: (lowerStr (haystackOf elLogIn)).data) :=
  ⟨by decide, (C1_fuzzy_vs_exact_text_filter elLogIn "log" (by decide)).1⟩

/-- C2: for a non-negative index, find_element returns the element at
that position of the filtered sequence (document order preserved by
`List.filter`) and the not-found sentinel when the index is out of
range, never an error. -/
theorem C2_index_selection (elements : List Element) (c : Criteria)
    (h : 0 ≤ c.index) :
    find_element elements c =
      match (elements.filter (passesFilters c))[c.index.toNat]? with
      | some e => FindResult.found e
      | none => FindResult.notFound := by
  unfold find_element
  by_cases h1 : elements.filter (passesFilters c) = []
  · rw [if_neg (by simp [h1])]
    rw [h1]
    simp
  · by_cases h2 : c.index < ((elements.filter (passesFilters c)).length : ℤ)
    · rw [if_pos ⟨h1, h2⟩]
      unfold pyListGet
      rw [if_pos h]
      have hlt : c.index.toNat < (elements.filter (passesFilters c)).length := by omega
      rw [List.getElem?_eq_getElem hlt]
    · rw [if_neg (by tauto)]
      have hge : (elements.filter (passesFilters c)).length ≤ c.index.toNat := by omega
      rw [List.getElem?_eq_none_iff.mpr hge]

/-- Witness for C2: three enabled buttons A, B, C; index 1 returns B and
index 5 returns the not-found sentinel. -/
theorem C2_witness :
    find_element threeButtons ⟨none, some "Button", none, 1, true⟩ = .found elB ∧
    find_element threeButtons ⟨none, some "Button", none, 5, true⟩ = .notFound := by
  constructor
  · rw [C2_index_selection threeButtons ⟨none, some "Button", none, 1, true⟩ (by decide)]
    decide
  · rw [C2_index_selection threeButtons ⟨none, some "Button", none, 5, true⟩ (by decide)]
    decide

/-- C3: a disabled element is never the result of find_element, while
the flattener emits every node with a truthy type entry, disabled or
not. -/
theorem C3_disabled_excluded :
    (∀ (elements : List Element) (c : Criteria) (e : Element),
        find_element elements c = .found e → e.enabled = true) ∧
    (∀ (t n : Node), n ∈ specPreorder t → truthyOptStr n.typeField = true →
        nodeElement n ∈ flatten_tree t) := by
  constructor
  · intro elements c e hfind
    have hp := find_element_found_passes elements c e hfind
    simp [passesFilters] at hp
    exact hp.1.1.1
  · intro t n hmem htr
    rw [flatten_tree_eq]
    exact List.mem_filterMap.mpr ⟨n, hmem, by simp [emitNode, htr]⟩

/-- Witness for C3: an enabled found element is indeed enabled, and the
disabled "Pay" node still appears in its own flattening. -/
theorem C3_witness :
    elA.enabled = true ∧ nodeElement nodeDisabled ∈ flatten_tree nodeDisabled :=
  ⟨C3_disabled_excluded.1 threeButtons ⟨none, some "Button", none, 0, true⟩ elA (by decide),
   C3_disabled_excluded.2 nodeDisabled nodeDisabled (by exact List.mem_cons_self _ _) (by decide)⟩

/-- C4: the flattener emits exactly the truthy-typed nodes of the
pre-order depth-first node sequence, in that order; on the concrete tree
R[C1[C1a], C2] it yields [R, C1, C1a, C2]. -/
theorem C4_flatten_preorder :
    (∀ t : Node, flatten_tree t = (specPreorder t).filterMap emitNode) ∧
    flatten_tree nodeR =
      [nodeElement nodeR, nodeElement nodeC1, nodeElement nodeC1a, nodeElement nodeC2] :=
  ⟨flatten_tree_eq, by decide⟩

/-- C5 counterexample: when the one successful fetch yields an empty
JSON object (which Python treats as falsy), the second
`getTree(false)` call fetches again, so two consecutive calls perform
two external fetches, not one. -/
theorem C5_counterexample :
    (get_accessibility_tree emptyObjFetch
        (get_accessibility_tree emptyObjFetch initNav false).2 false).2.fetchCount = 2 ∧
    ¬ (get_accessibility_tree emptyObjFetch
        (get_accessibility_tree emptyObjFetch initNav false).2 false).2.fetchCount = 1 :=
  ⟨rfl, by intro h; rw [show (get_accessibility_tree emptyObjFetch
      (get_accessibility_tree emptyObjFetch initNav false).2 false).2.fetchCount = 2 from rfl] at h; cases h⟩

/-- C5 amended: when the first fetch yields a truthy (non-empty)
snapshot, two consecutive `getTree(false)` calls from a fresh Navigator
perform exactly one external fetch and the second call returns the
cached snapshot and state unchanged; `getTree(true)` always performs a
new fetch from any state and replaces the cached snapshot wholesale. -/
theorem C5_cache_amended (fetch : ℕ → PyJson) (s : NavState)
    (h : pyTruthy (reduceFetched (fetch 0)) = true) :
    ((get_accessibility_tree fetch
        (get_accessibility_tree fetch initNav false).2 false).2.fetchCount = 1 ∧
     (get_accessibility_tree fetch
        (get_accessibility_tree fetch initNav false).2 false).1 =
       (get_accessibility_tree fetch initNav false).1 ∧
     (get_accessibility_tree fetch
        (get_accessibility_tree fetch initNav false).2 false).2 =
       (get_accessibility_tree fetch initNav false).2) ∧
    ((get_accessibility_tree fetch s true).2.fetchCount = s.fetchCount + 1 ∧
     (get_accessibility_tree fetch s true).2.treeCache =
       some (reduceFetched (fetch s.fetchCount))) := by
  constructor
  · have h1 : get_accessibility_tree fetch initNav false =
        (reduceFetched (fetch 0), ⟨some (reduceFetched (fetch 0)), 1⟩) := by
      simp [get_accessibility_tree, initNav, truthyCache]
    rw [h1]
    simp [get_accessibility_tree, truthyCache, h]
  · simp [get_accessibility_tree]

/-- Witness for C5 with a fetch oracle yielding a truthy snapshot. -/
theorem C5_witness :
    pyTruthy (reduceFetched (appObjFetch 0)) = true ∧
    (get_accessibility_tree appObjFetch
        (get_accessibility_tree appObjFetch initNav false).2 false).2.fetchCount = 1 :=
  ⟨rfl, (C5_cache_amended appObjFetch initNav rfl).1.1⟩

/-- C6: at the documented example input (100, 200, 195, 422, 390, 844)
the coordinate transform of the source, with Python float arithmetic
modelled exactly as binary64 rounding, returns (199, 400); the exact
formula floor(x / screenshotW * deviceW) claimed by the spec and by the
docstring of the function itself gives (200, 400). -/
theorem C6_transform_divergence :
    transform_screenshot_coords 100 200 195 422 390 844 = (199, 400) ∧
    specTransform 100 200 195 422 390 844 = (200, 400) ∧
    transform_screenshot_coords 100 200 195 422 390 844 ≠
      specTransform 100 200 195 422 390 844 :=
  ⟨by decide, by decide, by decide⟩

/-- C7: when the tap of the supplied element fails, enter_text returns
failure and no text-entry command is ever dispatched to the external
collaborator. -/
theorem C7_failed_tap_propagation (tapOk : ℤ → ℤ → Bool) (textOk : String → Bool)
    (s : String) (e : Element)
    (h : tapOk e.center.1 e.center.2 = false) :
    (enter_text tapOk textOk s (some e)).1 = false ∧
    ∀ u, Cmd.textCmd u ∉ (enter_text tapOk textOk s (some e)).2 := by
  simp [enter_text, tap, tap_at, h]

/-- Witness for C7 with an always-failing tap collaborator. -/
theorem C7_witness :
    ((fun _ _ => false) : ℤ → ℤ → Bool) elLogIn.center.1 elLogIn.center.2 = false ∧
    (enter_text (fun _ _ => false) (fun _ => true) "hi" (some elLogIn)).1 = false :=
  ⟨rfl, (C7_failed_tap_propagation (fun _ _ => false) (fun _ => true) "hi" elLogIn rfl).1⟩

/-- C8 counterexample: with criteria text "Submit" (and type
"TextField") matching nothing, find_and_enter_text returns the fixed
message "TextField not found", which does not echo the criterion text at
all, contradicting the claimed descriptive criteria echo. -/
theorem C8_counterexample :
    find_and_enter_text (fun _ _ => true) (fun _ => true) [] "hello"
      (some "Submit") (some "TextField") none 0 =
      .ok false "TextField not found" ∧
    pyIn "Submit" "TextField not found" = false :=
  ⟨by decide, by decide⟩

/-- C8 amended: when the criteria match no element, both operations
return success=false without raising; find_and_tap with a message
echoing the given criteria, find_and_enter_text with the fixed message
"TextField not found" that does not echo them. -/
theorem C8_not_found_messages (tapOk : ℤ → ℤ → Bool) (textOk : String → Bool)
    (elements : List Element) (text elementType identifier : Option String)
    (index : ℤ) (tte : String)
    (h : elements.filter (passesFilters ⟨text, elementType, identifier, index, true⟩) = []) :
    find_and_tap tapOk elements text elementType identifier index =
      .ok false ("Not found: " ++ joinSep ", " (criteriaEcho text elementType identifier)) ∧
    find_and_enter_text tapOk textOk elements tte text elementType identifier index =
      .ok false "TextField not found" := by
  have hfe : find_element elements ⟨text, elementType, identifier, index, true⟩ = .notFound := by
    unfold find_element
    simp [h]
  constructor
  · unfold find_and_tap
    rw [hfe]
  · unfold find_and_enter_text
    rw [hfe]

/-- Witness for C8 on an empty element list with criteria text "Submit"
and type "TextField". -/
theorem C8_witness :
    ([] : List Element).filter
        (passesFilters ⟨some "Submit", some "TextField", none, 0, true⟩) = [] ∧
    find_and_tap (fun _ _ => true) [] (some "Submit") (some "TextField") none 0 =
      .ok false ("Not found: " ++
        joinSep ", " (criteriaEcho (some "Submit") (some "TextField") none)) :=
  ⟨rfl, (C8_not_found_messages (fun _ _ => true) (fun _ => true) []
    (some "Submit") (some "TextField") none 0 "x" rfl).1⟩

/-- C9: for a negative index with a non-empty match list, find_element
does not return the not-found sentinel: for -len ≤ index it returns the
match counted from the end of the filtered sequence, and for
index < -len the lookup raises an index error. -/
theorem C9_negative_index (elements : List Element) (c : Criteria)
    (hneg : c.index < 0)
    (hne : elements.filter (passesFilters c) ≠ []) :
    find_element elements c ≠ .notFound ∧
    (-(((elements.filter (passesFilters c)).length : ℤ)) ≤ c.index →
      ∃ e, (elements.filter (passesFilters c))[(((elements.filter (passesFilters c)).length : ℤ) + c.index).toNat]? = some e ∧
        find_element elements c = .found e) ∧
    (c.index < -(((elements.filter (passesFilters c)).length : ℤ)) →
      find_element elements c = .indexError) := by
  have hlen : 0 < ((elements.filter (passesFilters c)).length : ℤ) := by
    have := List.length_pos.mpr hne
    omega
  have hguard : elements.filter (passesFilters c) ≠ [] ∧
      c.index < ((elements.filter (passesFilters c)).length : ℤ) := ⟨hne, by omega⟩
  have hfe : find_element elements c = pyListGet (elements.filter (passesFilters c)) c.index := by
    unfold find_element
    rw [if_pos hguard]
  refine ⟨?_, ?_, ?_⟩
  · rw [hfe]
    unfold pyListGet
    rw [if_neg (by omega)]
    by_cases h1 : 0 ≤ ((elements.filter (passesFilters c)).length : ℤ) + c.index
    · rw [if_pos h1]
      cases (elements.filter (passesFilters c))[(((elements.filter (passesFilters c)).length : ℤ) + c.index).toNat]? with
      | some e2 => simp
      | none => simp
    · rw [if_neg h1]; simp
  · intro hge
    have h1 : 0 ≤ ((elements.filter (passesFilters c)).length : ℤ) + c.index := by omega
    have hlt : ((((elements.filter (passesFilters c)).length : ℤ) + c.index)).toNat <
        (elements.filter (passesFilters c)).length := by omega
    refine ⟨(elements.filter (passesFilters c)).get ⟨_, hlt⟩, ?_, ?_⟩
    · rw [List.getElem?_eq_getElem hlt]
      simp
    · rw [hfe]
      unfold pyListGet
      rw [if_neg (by omega), if_pos h1, List.getElem?_eq_getElem hlt]
      simp
  · intro hlt2
    rw [hfe]
    unfold pyListGet
    rw [if_neg (by omega), if_neg (by omega)]

/-- Witness for C9: among the three buttons, index -1 returns the last
match C, and index -4 raises instead of returning not-found. -/
theorem C9_witness :
    find_element threeButtons ⟨none, some "Button", none, -1, true⟩ ≠ .notFound ∧
    find_element threeButtons ⟨none, some "Button", none, -1, true⟩ = .found elC ∧
    find_element threeButtons ⟨none, some "Button", none, -4, true⟩ = .indexError := by
  refine ⟨(C9_negative_index threeButtons ⟨none, some "Button", none, -1, true⟩
      (by decide) (by decide)).1, by decide,
    (C9_negative_index threeButtons ⟨none, some "Button", none, -4, true⟩
      (by decide) (by decide)).2.2 (by decide)⟩

/-- C10: neither composed operation forwards a fuzzy flag: each is the
post-lookup action applied to find_element with fuzzy fixed to true, so
text matching through them is always fuzzy; concretely, text "log"
reaches and taps the button labelled "Log In" through find_and_tap while
exact matching on the same criteria finds nothing. -/
theorem C10_fuzzy_unreachable :
    (∀ (tapOk : ℤ → ℤ → Bool) (elements : List Element)
        (text elementType identifier : Option String) (index : ℤ),
        find_and_tap tapOk elements text elementType identifier index =
          actOnFindTap tapOk
            (find_element elements ⟨text, elementType, identifier, index, true⟩)
            text elementType identifier) ∧
    (∀ (tapOk : ℤ → ℤ → Bool) (textOk : String → Bool) (elements : List Element)
        (tte : String) (ft elementType identifier : Option String) (index : ℤ),
        find_and_enter_text tapOk textOk elements tte ft elementType identifier index =
          actOnFindEnter tapOk textOk tte
            (find_element elements ⟨ft, elementType, identifier, index, true⟩)) ∧
    (find_and_tap (fun _ _ => true) [elLogIn] (some "log") none none 0).succeeded = true ∧
    find_element [elLogIn] ⟨some "log", none, none, 0, false⟩ = .notFound :=
  ⟨fun _ _ _ _ _ _ => rfl, fun _ _ _ _ _ _ _ _ => rfl, by decide, by decide⟩
